import Mathlib

/-!
Shallow embedding of the Lily security-rule engine:
`src/outbound/security/transformer.py` (class `SecurityTransformer`) and the
downstream fan-out of `src/outbound/processor.py`
(`OutboundProcessor._format_for_downstream_systems`).

Python values handled by the engine are modelled by `Val` (None, str, int,
list, dict); dicts are association lists with first-match lookup (Python dicts
never hold duplicate keys, so on dict-like inputs this is exact); a raised
exception is modelled by `Except.error` carrying the message.  The two
timestamp sources (`datetime.utcnow().isoformat()` and the `strftime` token
inside `_generate_rule_id`) are abstracted into one abstract `now : String`
parameter: no claim relates the two strings to each other.
-/

/-- A Python value as the transformer manipulates it. -/
inductive Val where
  | null
  | str (s : String)
  | int (n : Int)
  | list (xs : List Val)
  | obj (kvs : List (String × Val))

/-- A Python dict, as an association list (first match wins on lookup). -/
abbrev Dict := List (String × Val)

/-- `d[k]` as an `Option`: the value stored under key `k`. -/
def lookup : Dict → String → Option Val
  | [], _ => none
  | (k, v) :: rest, key => if k = key then some v else lookup rest key

/-- Python `k in d` for a dict. -/
def hasKey (d : Dict) (k : String) : Bool := (lookup d k).isSome

/-- Python `d.get(k, dflt)` for a dict. -/
def dget (d : Dict) (k : String) (dflt : Val) : Val := (lookup d k).getD dflt

/-- Python `v == s` between an arbitrary value and a string literal
    (`str.__eq__` is `False` on non-strings, never an error). -/
def valEqStr (v : Val) (s : String) : Bool :=
  match v with
  | .str t => t = s
  | _ => false

/-- Python `needle in hay` on strings: substring containment. -/
def strIn (needle hay : String) : Bool := decide (needle.data <:+: hay.data)

/-- Python `k in v` for the value kinds of the embedding: key membership for a
    dict, element equality for a list, substring for a str, `TypeError`
    otherwise. -/
def keyIn (k : String) (v : Val) : Except String Bool :=
  match v with
  | .obj d => .ok (hasKey d k)
  | .list xs => .ok (xs.any (fun x => valEqStr x k))
  | .str s => .ok (strIn k s)
  | .int _ => .error "TypeError: argument of type int is not a container"
  | .null => .error "TypeError: argument of type NoneType is not a container"

/-- Python `all(k in v for k in ks)`: short-circuits on the first missing key,
    propagating a `TypeError` from the membership test itself. -/
def allKeysIn : List String → Val → Except String Bool
  | [], _ => .ok true
  | k :: ks, v =>
    match keyIn k v with
    | .error e => .error e
    | .ok true => allKeysIn ks v
    | .ok false => .ok false

/-- Python `v[k]` for a string key: `KeyError` on a dict missing the key,
    `TypeError` when `v` is not a dict. -/
def getItem (v : Val) (k : String) : Except String Val :=
  match v with
  | .obj d =>
    match lookup d k with
    | some x => .ok x
    | none => .error ("KeyError: " ++ k)
  | _ => .error ("TypeError: value is not subscriptable by string key " ++ k)

/-- Python `v.get(k, dflt)`: only dicts have `.get`. -/
def vget (v : Val) (k : String) (dflt : Val) : Except String Val :=
  match v with
  | .obj d => .ok ((lookup d k).getD dflt)
  | _ => .error ("AttributeError: value has no attribute get for key " ++ k)

/-- Python `for x in v`: a list yields its elements, a str its characters,
    a dict its keys; int/None raise `TypeError`. -/
def pyIter : Val → Except String (List Val)
  | .list xs => .ok xs
  | .str s => .ok (s.data.map (fun c => .str (String.singleton c)))
  | .obj d => .ok (d.map (fun kv => .str kv.1))
  | .int _ => .error "TypeError: int object is not iterable"
  | .null => .error "TypeError: NoneType object is not iterable"

/-- `str(v)` as the engine uses it inside f-strings.  The engine only ever
    formats scalar values (`rule_id`, `rule_type`, target names); the
    container cases are abbreviated renderings. -/
def pyStr : Val → String
  | .null => "None"
  | .str s => s
  | .int n => toString n
  | .list _ => "<list>"
  | .obj _ => "<dict>"

/-- Left-to-right effectful map over a Python `for` loop that appends one
    transformed element per iteration, stopping at the first raised error. -/
def mapE (g : Val → Except String Val) : List Val → Except String (List Val)
  | [] => .ok []
  | x :: xs =>
    match g x with
    | .error e => .error e
    | .ok y =>
      match mapE g xs with
      | .error e => .error e
      | .ok ys => .ok (y :: ys)

/-- `SecurityTransformer.supported_rule_types`. -/
def supported_rule_types : List String := ["PII", "GDPR", "CUSTOM"]

/-- Python `v in self.supported_rule_types`. -/
def isSupportedRuleType (v : Val) : Bool :=
  supported_rule_types.any (fun s => valEqStr v s)

/-- Loop body of `SecurityTransformer._transform_conditions`: check
    `field`/`operator`/`value` are present, then rebuild the condition with
    `description`/`severity` defaulted under a nested `metadata` record. -/
def transformCond (condition : Val) : Except String Val :=
  match allKeysIn ["field", "operator", "value"] condition with
  | .error e => .error e
  | .ok false => .error "Invalid condition format"
  | .ok true =>
    match getItem condition "field" with
    | .error e => .error e
    | .ok f =>
      match getItem condition "operator" with
      | .error e => .error e
      | .ok o =>
        match getItem condition "value" with
        | .error e => .error e
        | .ok v =>
          match vget condition "description" (.str "") with
          | .error e => .error e
          | .ok d =>
            match vget condition "severity" (.str "medium") with
            | .error e => .error e
            | .ok s =>
              .ok (.obj [("field", f), ("operator", o), ("value", v),
                ("metadata", .obj [("description", d), ("severity", s)])])

/-- `SecurityTransformer._transform_conditions`. -/
def transform_conditions (conditions : Val) : Except String (List Val) :=
  match pyIter conditions with
  | .error e => .error e
  | .ok items => mapE transformCond items

/-- Loop body of `SecurityTransformer._transform_actions`. -/
def transformAct (action : Val) : Except String Val :=
  match keyIn "type" action with
  | .error e => .error e
  | .ok false => .error "Invalid action format"
  | .ok true =>
    match getItem action "type" with
    | .error e => .error e
    | .ok t =>
      match vget action "parameters" (.obj []) with
      | .error e => .error e
      | .ok p =>
        match vget action "description" (.str "") with
        | .error e => .error e
        | .ok d =>
          match vget action "priority" (.str "normal") with
          | .error e => .error e
          | .ok pr =>
            .ok (.obj [("type", t), ("parameters", p),
              ("metadata", .obj [("description", d), ("priority", pr)])])

/-- `SecurityTransformer._transform_actions`. -/
def transform_actions (actions : Val) : Except String (List Val) :=
  match pyIter actions with
  | .error e => .error e
  | .ok items => mapE transformAct items

/-- `SecurityTransformer.transform_security_rule`.  `now` abstracts the call
    time: it feeds both `metadata` timestamps and the generated
    `rule_id` (`_generate_rule_id` produces `"rule_" + timestamp`). -/
def transform_security_rule (now : String) (rule_data : Dict) :
    Except String Dict :=
  if hasKey rule_data "rule_type" = false then
    .error "Missing required field: rule_type"
  else
    let rt := dget rule_data "rule_type" .null
    if isSupportedRuleType rt = false then
      .error ("Unsupported rule type: " ++ pyStr rt)
    else
      match transform_conditions (dget rule_data "conditions" (.list [])) with
      | .error e => .error e
      | .ok conds =>
        match transform_actions (dget rule_data "actions" (.list [])) with
        | .error e => .error e
        | .ok acts =>
          .ok [("rule_id", dget rule_data "rule_id" (.str ("rule_" ++ now))),
               ("rule_type", rt),
               ("asset_id", dget rule_data "asset_id" .null),
               ("asset_type", dget rule_data "asset_type" .null),
               ("conditions", .list conds),
               ("actions", .list acts),
               ("metadata", .obj [
                 ("created_at", .str now),
                 ("updated_at", .str now),
                 ("source", .str "atlan"),
                 ("version", .str "1.0")])]

/-- Condition loop of `SecurityTransformer.validate_rule`: `False` at the
    first condition lacking `field`/`operator`/`value`. -/
def checkCondsV : List Val → Except String Bool
  | [] => .ok true
  | c :: rest =>
    match allKeysIn ["field", "operator", "value"] c with
    | .error e => .error e
    | .ok false => .ok false
    | .ok true => checkCondsV rest

/-- Action loop of `SecurityTransformer.validate_rule`. -/
def checkActsV : List Val → Except String Bool
  | [] => .ok true
  | a :: rest =>
    match keyIn "type" a with
    | .error e => .error e
    | .ok false => .ok false
    | .ok true => checkActsV rest

/-- `SecurityTransformer.validate_rule`: a boolean gate, `False` on the first
    failed check; only a malformed (non-iterable / non-container) payload can
    raise. -/
def validate_rule (rule : Dict) : Except String Bool :=
  if hasKey rule "rule_type" = false then .ok false
  else if hasKey rule "asset_id" = false then .ok false
  else if hasKey rule "conditions" = false then .ok false
  else if hasKey rule "actions" = false then .ok false
  else if isSupportedRuleType (dget rule "rule_type" .null) = false then
    .ok false
  else
    match pyIter (dget rule "conditions" .null) with
    | .error e => .error e
    | .ok cs =>
      match checkCondsV cs with
      | .error e => .error e
      | .ok false => .ok false
      | .ok true =>
        match pyIter (dget rule "actions" .null) with
        | .error e => .error e
        | .ok acts => checkActsV acts

/-- Comprehension body of `SecurityTransformer._format_snowflake_conditions`. -/
def formatCondSnow (condition : Val) : Except String Val :=
  match getItem condition "field" with
  | .error e => .error e
  | .ok f =>
    match getItem condition "operator" with
    | .error e => .error e
    | .ok o =>
      match getItem condition "value" with
      | .error e => .error e
      | .ok v => .ok (.obj [("column", f), ("operator", o), ("value", v)])

/-- `SecurityTransformer._format_snowflake_conditions`. -/
def format_snowflake_conditions (conditions : Val) :
    Except String (List Val) :=
  match pyIter conditions with
  | .error e => .error e
  | .ok xs => mapE formatCondSnow xs

/-- Comprehension body of `SecurityTransformer._format_snowflake_actions`. -/
def formatActSnow (action : Val) : Except String Val :=
  match getItem action "type" with
  | .error e => .error e
  | .ok t =>
    match getItem action "parameters" with
    | .error e => .error e
    | .ok p => .ok (.obj [("type", t), ("parameters", p)])

/-- `SecurityTransformer._format_snowflake_actions`. -/
def format_snowflake_actions (actions : Val) : Except String (List Val) :=
  match pyIter actions with
  | .error e => .error e
  | .ok xs => mapE formatActSnow xs

/-- `SecurityTransformer._format_databricks_conditions` (textually identical
    body to the snowflake one in the source). -/
def format_databricks_conditions (conditions : Val) :
    Except String (List Val) :=
  match pyIter conditions with
  | .error e => .error e
  | .ok xs => mapE formatCondSnow xs

/-- `SecurityTransformer._format_databricks_actions` (textually identical body
    to the snowflake one in the source). -/
def format_databricks_actions (actions : Val) : Except String (List Val) :=
  match pyIter actions with
  | .error e => .error e
  | .ok xs => mapE formatActSnow xs

/-- `SecurityTransformer._format_for_snowflake`. -/
def format_for_snowflake (rule : Dict) : Except String Dict :=
  match lookup rule "rule_id" with
  | none => .error "KeyError: rule_id"
  | some rid =>
    match lookup rule "conditions" with
    | none => .error "KeyError: conditions"
    | some conds =>
      match format_snowflake_conditions conds with
      | .error e => .error e
      | .ok fc =>
        match lookup rule "actions" with
        | none => .error "KeyError: actions"
        | some acts =>
          match format_snowflake_actions acts with
          | .error e => .error e
          | .ok fa =>
            .ok [("type", .str "snowflake_policy"),
                 ("name", .str ("atlan_" ++ pyStr rid)),
                 ("database", dget rule "database" (.str "PUBLIC")),
                 ("schema", dget rule "schema" (.str "PUBLIC")),
                 ("table", dget rule "table" .null),
                 ("conditions", .list fc),
                 ("actions", .list fa)]

/-- `SecurityTransformer._format_for_databricks`. -/
def format_for_databricks (rule : Dict) : Except String Dict :=
  match lookup rule "rule_id" with
  | none => .error "KeyError: rule_id"
  | some rid =>
    match lookup rule "conditions" with
    | none => .error "KeyError: conditions"
    | some conds =>
      match format_databricks_conditions conds with
      | .error e => .error e
      | .ok fc =>
        match lookup rule "actions" with
        | none => .error "KeyError: actions"
        | some acts =>
          match format_databricks_actions acts with
          | .error e => .error e
          | .ok fa =>
            .ok [("type", .str "databricks_policy"),
                 ("name", .str ("atlan_" ++ pyStr rid)),
                 ("catalog", dget rule "catalog" (.str "hive_metastore")),
                 ("schema", dget rule "schema" (.str "default")),
                 ("table", dget rule "table" .null),
                 ("conditions", .list fc),
                 ("actions", .list fa)]

/-- `SecurityTransformer.format_for_downstream`: dispatch on the target name,
    raising on any unregistered target. -/
def format_for_downstream (rule : Dict) (target_system : String) :
    Except String Dict :=
  if target_system = "snowflake" then format_for_snowflake rule
  else if target_system = "databricks" then format_for_databricks rule
  else .error ("Unsupported target system: " ++ target_system)

/-- `OutboundProcessor._format_for_downstream_systems`: try each of the two
    targets, keeping the successes and dropping (after logging) the failures;
    the call itself never raises. -/
def format_for_downstream_systems (rule : Dict) : Dict :=
  let d1 : Dict :=
    match format_for_downstream rule "snowflake" with
    | .ok p => [("snowflake", .obj p)]
    | .error _ => []
  let d2 : Dict :=
    match format_for_downstream rule "databricks" with
    | .ok p => [("databricks", .obj p)]
    | .error _ => []
  d1 ++ d2

/-- Reading a key of a value known to be a dict (plain accessor used in
    theorem statements). -/
def lookupObj (v : Val) (k : String) : Option Val :=
  match v with
  | .obj d => lookup d k
  | _ => none

/-- The value is a Python dict. -/
def isObjB : Val → Bool
  | .obj _ => true
  | _ => false

/-- A raw condition acceptable to the transformer: a dict carrying `field`,
    `operator` and `value`. -/
def wfCondVal : Val → Bool
  | .obj d => hasKey d "field" && hasKey d "operator" && hasKey d "value"
  | _ => false

/-- A raw action acceptable to the transformer: a dict carrying `type`. -/
def wfActVal : Val → Bool
  | .obj d => hasKey d "type"
  | _ => false

/-- A condition acceptable to the downstream formatters. -/
def wfCondFmtVal : Val → Bool
  | .obj d => hasKey d "field" && hasKey d "operator" && hasKey d "value"
  | _ => false

/-- An action acceptable to the downstream formatters: a dict carrying `type`
    and `parameters`. -/
def wfActFmtVal : Val → Bool
  | .obj d => hasKey d "type" && hasKey d "parameters"
  | _ => false

/-- A well-formed `conditions` payload: a list of well-formed conditions. -/
def wfCondsV (v : Val) : Bool :=
  match v with
  | .list xs => xs.all wfCondVal
  | _ => false

/-- A well-formed `actions` payload: a list of well-formed actions. -/
def wfActsV (v : Val) : Bool :=
  match v with
  | .list xs => xs.all wfActVal
  | _ => false

/-! ### Supporting lemmas -/

lemma hasKey_iff (d : Dict) (k : String) :
    hasKey d k = true ↔ ∃ v, lookup d k = some v := by
  simp [hasKey, Option.isSome_iff_exists]

lemma mapE_ok_getD (g : Val → Except String Val) (xs ys : List Val)
    (h : mapE g xs = .ok ys) :
    ys.length = xs.length ∧
    ∀ i, i < xs.length → g (xs.getD i .null) = .ok (ys.getD i .null) := by
  induction xs generalizing ys with
  | nil =>
    simp [mapE] at h
    subst h
    simp
  | cons x xs ih =>
    simp only [mapE] at h
    cases hx : g x with
    | error e => simp [hx] at h
    | ok y =>
      rw [hx] at h
      cases hxs : mapE g xs with
      | error e => simp [hxs] at h
      | ok ys2 =>
        rw [hxs] at h
        cases h
        obtain ⟨hlen, hpt⟩ := ih ys2 hxs
        refine ⟨by simp [hlen], ?_⟩
        intro i hi
        cases i with
        | zero => simpa using hx
        | succ j =>
          simp only [List.length_cons] at hi
          simp only [List.getD_cons_succ]
          exact hpt j (by omega)

lemma mapE_ok_mem (g : Val → Except String Val) (xs ys : List Val)
    (h : mapE g xs = .ok ys) :
    ∀ y ∈ ys, ∃ x ∈ xs, g x = .ok y := by
  induction xs generalizing ys with
  | nil =>
    simp [mapE] at h
    subst h
    simp
  | cons x xs ih =>
    simp only [mapE] at h
    cases hx : g x with
    | error e => simp [hx] at h
    | ok y =>
      rw [hx] at h
      cases hxs : mapE g xs with
      | error e => simp [hxs] at h
      | ok ys2 =>
        rw [hxs] at h
        cases h
        intro z hz
        rcases List.mem_cons.mp hz with hz | hz
        · exact ⟨x, List.mem_cons_self x xs, hz ▸ hx⟩
        · obtain ⟨w, hw, hgw⟩ := ih ys2 hxs z hz
          exact ⟨w, List.mem_cons_of_mem x hw, hgw⟩

lemma mapE_ok_of_forall (g : Val → Except String Val) (xs : List Val)
    (h : ∀ x ∈ xs, ∃ y, g x = .ok y) :
    ∃ ys, mapE g xs = .ok ys := by
  induction xs with
  | nil => exact ⟨[], rfl⟩
  | cons x xs ih =>
    obtain ⟨y, hy⟩ := h x (List.mem_cons_self x xs)
    obtain ⟨ys, hys⟩ := ih (fun z hz => h z (List.mem_cons_of_mem x hz))
    exact ⟨y :: ys, by simp [mapE, hy, hys]⟩

/-! ### C5: the validation gate -/

lemma checkCondsV_obj (cs : List Val) (h : cs.all isObjB = true) :
    ∃ b, checkCondsV cs = .ok b := by
  induction cs with
  | nil => exact ⟨true, rfl⟩
  | cons c cs ih =>
    simp only [List.all_cons, Bool.and_eq_true] at h
    obtain ⟨hc, hcs⟩ := h
    cases c with
    | obj d =>
      obtain ⟨b, hb⟩ := ih hcs
      by_cases hf : hasKey d "field" = true
      · by_cases ho : hasKey d "operator" = true
        · by_cases hv : hasKey d "value" = true
          · exact ⟨b, by simp [checkCondsV, allKeysIn, keyIn, hf, ho, hv, hb]⟩
          · exact ⟨false, by simp [checkCondsV, allKeysIn, keyIn, hf, ho,
              Bool.eq_false_iff.mpr hv]⟩
        · exact ⟨false, by simp [checkCondsV, allKeysIn, keyIn, hf,
            Bool.eq_false_iff.mpr ho]⟩
      · exact ⟨false, by simp [checkCondsV, allKeysIn, keyIn,
          Bool.eq_false_iff.mpr hf]⟩
    | null => simp [isObjB] at hc
    | str s => simp [isObjB] at hc
    | int n => simp [isObjB] at hc
    | list l => simp [isObjB] at hc

lemma checkActsV_obj (acts : List Val) (h : acts.all isObjB = true) :
    ∃ b, checkActsV acts = .ok b := by
  induction acts with
  | nil => exact ⟨true, rfl⟩
  | cons a acts ih =>
    simp only [List.all_cons, Bool.and_eq_true] at h
    obtain ⟨ha, hacts⟩ := h
    cases a with
    | obj d =>
      obtain ⟨b, hb⟩ := ih hacts
      by_cases ht : hasKey d "type" = true
      · exact ⟨b, by simp [checkActsV, keyIn, ht, hb]⟩
      · exact ⟨false, by simp [checkActsV, keyIn, Bool.eq_false_iff.mpr ht]⟩
    | null => simp [isObjB] at ha
    | str s => simp [isObjB] at ha
    | int n => simp [isObjB] at ha
    | list l => simp [isObjB] at ha

/-- C5: `validate_rule` is a boolean gate: it answers `False` (rather than
    raising) whenever one of `rule_type`, `asset_id`, `conditions`, `actions`
    is absent; on any rule whose `conditions` and `actions` are lists of
    dicts it returns a boolean and never raises; and it answers `True` on the
    minimally complete rule
    `{rule_type: PII, asset_id: a1, conditions: [], actions: []}`. -/
theorem C5_validate_gate (r : Dict) :
    ((hasKey r "rule_type" && hasKey r "asset_id" &&
      hasKey r "conditions" && hasKey r "actions") = false →
      validate_rule r = .ok false) ∧
    (∀ cs acts, lookup r "conditions" = some (.list cs) →
      lookup r "actions" = some (.list acts) →
      (cs.all isObjB && acts.all isObjB) = true →
      ∃ b, validate_rule r = .ok b) ∧
    validate_rule [("rule_type", .str "PII"), ("asset_id", .str "a1"),
      ("conditions", .list []), ("actions", .list [])] = .ok true := by
  refine ⟨?_, ?_, rfl⟩
  · intro h
    cases h1 : hasKey r "rule_type" with
    | false => simp [validate_rule, h1]
    | true =>
      cases h2 : hasKey r "asset_id" with
      | false => simp [validate_rule, h1, h2]
      | true =>
        cases h3 : hasKey r "conditions" with
        | false => simp [validate_rule, h1, h2, h3]
        | true =>
          cases h4 : hasKey r "actions" with
          | false => simp [validate_rule, h1, h2, h3, h4]
          | true => simp [h1, h2, h3, h4] at h
  · intro cs acts hc ha hobj
    simp only [Bool.and_eq_true] at hobj
    obtain ⟨hcs, hacts⟩ := hobj
    cases h1 : hasKey r "rule_type" with
    | false => exact ⟨false, by simp [validate_rule, h1]⟩
    | true =>
      cases h2 : hasKey r "asset_id" with
      | false => exact ⟨false, by simp [validate_rule, h1, h2]⟩
      | true =>
        have h3 : hasKey r "conditions" = true := by simp [hasKey, hc]
        have h4 : hasKey r "actions" = true := by simp [hasKey, ha]
        cases h5 : isSupportedRuleType ((lookup r "rule_type").getD .null) with
        | false =>
          exact ⟨false, by simp [validate_rule, dget, h1, h2, h3, h4, h5]⟩
        | true =>
          obtain ⟨b, hb⟩ := checkCondsV_obj cs hcs
          cases b with
          | false =>
            exact ⟨false, by
              simp [validate_rule, h1, h2, h3, h4, h5, dget, hc, ha, pyIter, hb]⟩
          | true =>
            obtain ⟨b2, hb2⟩ := checkActsV_obj acts hacts
            exact ⟨b2, by
              simp [validate_rule, h1, h2, h3, h4, h5, dget, hc, ha, pyIter, hb, hb2]⟩

/-- Witness for C5 at concrete inputs: a rule missing `actions` is rejected
    with `False`, and the minimal complete rule is accepted. -/
theorem C5_validate_gate_witness :
    validate_rule [("rule_type", Val.str "PII"), ("asset_id", Val.str "a1"),
      ("conditions", Val.list [])] = .ok false ∧
    (∃ b, validate_rule [("rule_type", Val.str "PII"), ("asset_id", Val.str "a1"),
      ("conditions", Val.list []), ("actions", Val.list [])] = .ok b) ∧
    validate_rule [("rule_type", Val.str "PII"), ("asset_id", Val.str "a1"),
      ("conditions", Val.list []), ("actions", Val.list [])] = .ok true :=
  ⟨(C5_validate_gate [("rule_type", Val.str "PII"), ("asset_id", Val.str "a1"),
      ("conditions", Val.list [])]).1 rfl,
   (C5_validate_gate [("rule_type", Val.str "PII"), ("asset_id", Val.str "a1"),
      ("conditions", Val.list []), ("actions", Val.list [])]).2.1 [] [] rfl rfl rfl,
   (C5_validate_gate [("rule_type", Val.str "PII"), ("asset_id", Val.str "a1"),
      ("conditions", Val.list []), ("actions", Val.list [])]).2.2⟩

/-! ### C6: unknown downstream targets are rejected -/

/-- C6: for every rule and every target name outside the registered set
    `snowflake`/`databricks`, `format_for_downstream` raises an
    unsupported-target error instead of returning a policy. -/
theorem C6_unsupported_target (rule : Dict) (target : String)
    (h1 : target ≠ "snowflake") (h2 : target ≠ "databricks") :
    format_for_downstream rule target =
      .error ("Unsupported target system: " ++ target) := by
  simp [format_for_downstream, h1, h2]

/-- Witness for C6 at the concrete target `unknown_target`. -/
theorem C6_unsupported_target_witness :
    format_for_downstream [] "unknown_target" =
      .error ("Unsupported target system: " ++ "unknown_target") :=
  C6_unsupported_target [] "unknown_target" (by decide) (by decide)

/-! ### C7: fan-out failure isolation -/

/-- C7: in `OutboundProcessor._format_for_downstream_systems`, the outcome
    for each target is independent of the other: a target that formats successfully
    is always present in the returned mapping under its own key, a target
    whose formatting raises is omitted, and even when both targets fail the
    call returns the empty mapping rather than raising. -/
theorem C7_fanout_isolated_failures (rule : Dict) :
    (∀ p, format_for_downstream rule "snowflake" = .ok p →
      lookup (format_for_downstream_systems rule) "snowflake" =
        some (.obj p)) ∧
    (∀ p, format_for_downstream rule "databricks" = .ok p →
      lookup (format_for_downstream_systems rule) "databricks" =
        some (.obj p)) ∧
    (∀ e, format_for_downstream rule "snowflake" = .error e →
      lookup (format_for_downstream_systems rule) "snowflake" = none) ∧
    (∀ e, format_for_downstream rule "databricks" = .error e →
      lookup (format_for_downstream_systems rule) "databricks" = none) ∧
    (∀ e1 e2, format_for_downstream rule "snowflake" = .error e1 →
      format_for_downstream rule "databricks" = .error e2 →
      format_for_downstream_systems rule = []) := by
  cases hs : format_for_downstream rule "snowflake" <;>
    cases hd : format_for_downstream rule "databricks" <;>
      simp [format_for_downstream_systems, hs, hd, lookup]

/-- Witness for C7: a complete rule populates the `snowflake` entry; the
    empty rule fails both targets, is omitted from the mapping, and the
    overall call still returns (an empty mapping) instead of raising. -/
theorem C7_fanout_isolated_failures_witness :
    lookup (format_for_downstream_systems
        [("rule_id", Val.str "r1"), ("conditions", Val.list []),
         ("actions", Val.list [])]) "snowflake" =
      some (.obj [("type", Val.str "snowflake_policy"),
        ("name", Val.str "atlan_r1"), ("database", Val.str "PUBLIC"),
        ("schema", Val.str "PUBLIC"), ("table", Val.null),
        ("conditions", Val.list []), ("actions", Val.list [])]) ∧
    lookup (format_for_downstream_systems []) "snowflake" = none ∧
    format_for_downstream_systems [] = [] :=
  ⟨(C7_fanout_isolated_failures
      [("rule_id", Val.str "r1"), ("conditions", Val.list []),
       ("actions", Val.list [])]).1 _ rfl,
   (C7_fanout_isolated_failures []).2.2.1 "KeyError: rule_id" rfl,
   (C7_fanout_isolated_failures []).2.2.2.2 "KeyError: rule_id"
     "KeyError: rule_id" rfl rfl⟩

/-! ### Characterizing successful condition/action transformation -/

lemma transformCond_ok_iff (c c2 : Val) :
    transformCond c = .ok c2 ↔
    ∃ d f o v, c = .obj d ∧ lookup d "field" = some f ∧
      lookup d "operator" = some o ∧ lookup d "value" = some v ∧
      c2 = .obj [("field", f), ("operator", o), ("value", v),
        ("metadata", .obj
          [("description", (lookup d "description").getD (.str "")),
           ("severity", (lookup d "severity").getD (.str "medium"))])] := by
  constructor
  · intro h
    cases c with
    | null => simp [transformCond, allKeysIn, keyIn] at h
    | int n => simp [transformCond, allKeysIn, keyIn] at h
    | str s =>
      cases hk : allKeysIn ["field", "operator", "value"] (.str s) with
      | error e => simp [transformCond, hk] at h
      | ok b =>
        cases b with
        | false => simp [transformCond, hk] at h
        | true => simp [transformCond, hk, getItem] at h
    | list xs =>
      cases hk : allKeysIn ["field", "operator", "value"] (.list xs) with
      | error e => simp [transformCond, hk] at h
      | ok b =>
        cases b with
        | false => simp [transformCond, hk] at h
        | true => simp [transformCond, hk, getItem] at h
    | obj d =>
      cases hf : lookup d "field" with
      | none => simp [transformCond, allKeysIn, keyIn, hasKey, hf] at h
      | some f =>
        cases ho : lookup d "operator" with
        | none => simp [transformCond, allKeysIn, keyIn, hasKey, hf, ho] at h
        | some o =>
          cases hv : lookup d "value" with
          | none =>
            simp [transformCond, allKeysIn, keyIn, hasKey, hf, ho, hv] at h
          | some v =>
            refine ⟨d, f, o, v, rfl, hf, ho, hv, ?_⟩
            simp [transformCond, allKeysIn, keyIn, hasKey, getItem, vget,
              hf, ho, hv] at h
            exact h.symm
  · rintro ⟨d, f, o, v, rfl, hf, ho, hv, rfl⟩
    simp [transformCond, allKeysIn, keyIn, hasKey, getItem, vget, hf, ho, hv]

lemma transformAct_ok_iff (a a2 : Val) :
    transformAct a = .ok a2 ↔
    ∃ d t, a = .obj d ∧ lookup d "type" = some t ∧
      a2 = .obj [("type", t),
        ("parameters", (lookup d "parameters").getD (.obj [])),
        ("metadata", .obj
          [("description", (lookup d "description").getD (.str "")),
           ("priority", (lookup d "priority").getD (.str "normal"))])] := by
  constructor
  · intro h
    cases a with
    | null => simp [transformAct, keyIn] at h
    | int n => simp [transformAct, keyIn] at h
    | str s =>
      cases hb : strIn "type" s with
      | false => simp [transformAct, keyIn, hb] at h
      | true => simp [transformAct, keyIn, hb, getItem] at h
    | list xs =>
      cases hb : xs.any (fun x => valEqStr x "type") with
      | false => simp [transformAct, keyIn, hb] at h
      | true => simp [transformAct, keyIn, hb, getItem] at h
    | obj d =>
      cases ht : lookup d "type" with
      | none => simp [transformAct, keyIn, hasKey, ht] at h
      | some t =>
        refine ⟨d, t, rfl, ht, ?_⟩
        simp [transformAct, keyIn, hasKey, getItem, vget, ht] at h
        exact h.symm
  · rintro ⟨d, t, rfl, ht, rfl⟩
    simp [transformAct, keyIn, hasKey, getItem, vget, ht]

lemma transform_conditions_ok_of_wf (v : Val) (h : wfCondsV v = true) :
    ∃ cs, transform_conditions v = .ok cs := by
  cases v with
  | null => simp [wfCondsV] at h
  | str s => simp [wfCondsV] at h
  | int n => simp [wfCondsV] at h
  | obj d => simp [wfCondsV] at h
  | list xs =>
    simp only [wfCondsV, List.all_eq_true] at h
    have hall : ∀ x ∈ xs, ∃ y, transformCond x = .ok y := by
      intro x hx
      have hw := h x hx
      cases x with
      | null => simp [wfCondVal] at hw
      | str s => simp [wfCondVal] at hw
      | int n => simp [wfCondVal] at hw
      | list l => simp [wfCondVal] at hw
      | obj d =>
        simp only [wfCondVal, Bool.and_eq_true] at hw
        obtain ⟨⟨hf, ho⟩, hv2⟩ := hw
        obtain ⟨f, hf2⟩ := (hasKey_iff d "field").mp hf
        obtain ⟨o, ho2⟩ := (hasKey_iff d "operator").mp ho
        obtain ⟨w, hv3⟩ := (hasKey_iff d "value").mp hv2
        exact ⟨_, (transformCond_ok_iff (.obj d) _).mpr
          ⟨d, f, o, w, rfl, hf2, ho2, hv3, rfl⟩⟩
    obtain ⟨ys, hys⟩ := mapE_ok_of_forall _ xs hall
    exact ⟨ys, by simp [transform_conditions, pyIter, hys]⟩

lemma transform_actions_ok_of_wf (v : Val) (h : wfActsV v = true) :
    ∃ acts, transform_actions v = .ok acts := by
  cases v with
  | null => simp [wfActsV] at h
  | str s => simp [wfActsV] at h
  | int n => simp [wfActsV] at h
  | obj d => simp [wfActsV] at h
  | list xs =>
    simp only [wfActsV, List.all_eq_true] at h
    have hall : ∀ x ∈ xs, ∃ y, transformAct x = .ok y := by
      intro x hx
      have hw := h x hx
      cases x with
      | null => simp [wfActVal] at hw
      | str s => simp [wfActVal] at hw
      | int n => simp [wfActVal] at hw
      | list l => simp [wfActVal] at hw
      | obj d =>
        simp only [wfActVal] at hw
        obtain ⟨t, ht⟩ := (hasKey_iff d "type").mp hw
        exact ⟨_, (transformAct_ok_iff (.obj d) _).mpr ⟨d, t, rfl, ht, rfl⟩⟩
    obtain ⟨ys, hys⟩ := mapE_ok_of_forall _ xs hall
    exact ⟨ys, by simp [transform_actions, pyIter, hys]⟩

lemma transform_ok_elim (now : String) (raw : Dict) (r : Dict)
    (h : transform_security_rule now raw = .ok r) :
    ∃ conds acts,
      hasKey raw "rule_type" = true ∧
      isSupportedRuleType (dget raw "rule_type" .null) = true ∧
      transform_conditions (dget raw "conditions" (.list [])) = .ok conds ∧
      transform_actions (dget raw "actions" (.list [])) = .ok acts ∧
      r = [("rule_id", dget raw "rule_id" (.str ("rule_" ++ now))),
           ("rule_type", dget raw "rule_type" .null),
           ("asset_id", dget raw "asset_id" .null),
           ("asset_type", dget raw "asset_type" .null),
           ("conditions", .list conds),
           ("actions", .list acts),
           ("metadata", .obj [("created_at", .str now),
             ("updated_at", .str now), ("source", .str "atlan"),
             ("version", .str "1.0")])] := by
  cases h1 : hasKey raw "rule_type" with
  | false => simp [transform_security_rule, h1] at h
  | true =>
    cases h2 : isSupportedRuleType (dget raw "rule_type" .null) with
    | false => simp [transform_security_rule, h1, h2] at h
    | true =>
      cases h3 : transform_conditions (dget raw "conditions" (.list [])) with
      | error e => simp [transform_security_rule, h1, h2, h3] at h
      | ok conds =>
        cases h4 : transform_actions (dget raw "actions" (.list [])) with
        | error e => simp [transform_security_rule, h1, h2, h3, h4] at h
        | ok acts =>
          refine ⟨conds, acts, rfl, rfl, rfl, rfl, ?_⟩
          simp [transform_security_rule, h1, h2, h3, h4] at h
          exact h.symm

lemma transform_conditions_elim (v : Val) (cs : List Val)
    (h : transform_conditions v = .ok cs) :
    ∃ items, pyIter v = .ok items ∧ mapE transformCond items = .ok cs := by
  cases hp : pyIter v with
  | error e => simp [transform_conditions, hp] at h
  | ok items =>
    exact ⟨items, rfl, by simpa [transform_conditions, hp] using h⟩

lemma transform_actions_elim (v : Val) (acts : List Val)
    (h : transform_actions v = .ok acts) :
    ∃ items, pyIter v = .ok items ∧ mapE transformAct items = .ok acts := by
  cases hp : pyIter v with
  | error e => simp [transform_actions, hp] at h
  | ok items =>
    exact ⟨items, rfl, by simpa [transform_actions, hp] using h⟩

/-! ### C1: rule_type gating of transform -/

/-- C1: `transform_security_rule` raises when `rule_type` is absent, raises
    when the supplied `rule_type` is outside `{PII, GDPR, CUSTOM}`, and
    succeeds (returning a rule) whenever the `rule_type` is supported and the
    `conditions`/`actions` payloads are well-formed. -/
theorem C1_transform_rule_type_gate (now : String) (raw : Dict) :
    (hasKey raw "rule_type" = false →
      transform_security_rule now raw =
        .error "Missing required field: rule_type") ∧
    (∀ v, lookup raw "rule_type" = some v → isSupportedRuleType v = false →
      transform_security_rule now raw =
        .error ("Unsupported rule type: " ++ pyStr v)) ∧
    (∀ v, lookup raw "rule_type" = some v → isSupportedRuleType v = true →
      wfCondsV (dget raw "conditions" (.list [])) = true →
      wfActsV (dget raw "actions" (.list [])) = true →
      ∃ r, transform_security_rule now raw = .ok r) := by
  refine ⟨?_, ?_, ?_⟩
  · intro h
    simp [transform_security_rule, h]
  · intro v hv hns
    have h1 : hasKey raw "rule_type" = true := by simp [hasKey, hv]
    have hrt : dget raw "rule_type" .null = v := by simp [dget, hv]
    simp [transform_security_rule, h1, hrt, hns]
  · intro v hv hs hc ha
    have h1 : hasKey raw "rule_type" = true := by simp [hasKey, hv]
    have hrt : dget raw "rule_type" .null = v := by simp [dget, hv]
    obtain ⟨conds, hconds⟩ := transform_conditions_ok_of_wf _ hc
    obtain ⟨acts, hacts⟩ := transform_actions_ok_of_wf _ ha
    cases hres : transform_security_rule now raw with
    | ok r => exact ⟨r, rfl⟩
    | error e =>
      rw [transform_security_rule] at hres
      simp [h1, hrt, hs, hconds, hacts] at hres

/-- Witness for C1 at concrete inputs: missing `rule_type`, the unsupported
    `rule_type` `SOC2`, and a well-formed `PII` rule that transforms. -/
theorem C1_transform_rule_type_gate_witness :
    transform_security_rule "T" [] =
      .error "Missing required field: rule_type" ∧
    transform_security_rule "T" [("rule_type", Val.str "SOC2")] =
      .error ("Unsupported rule type: " ++ pyStr (Val.str "SOC2")) ∧
    (∃ r, transform_security_rule "T"
      [("rule_type", Val.str "PII"),
       ("conditions", Val.list [Val.obj [("field", Val.str "email"),
         ("operator", Val.str "contains"), ("value", Val.str "@")]]),
       ("actions", Val.list [Val.obj [("type", Val.str "mask")]])] =
      .ok r) :=
  ⟨(C1_transform_rule_type_gate "T" []).1 rfl,
   (C1_transform_rule_type_gate "T" [("rule_type", Val.str "SOC2")]).2.1
     (Val.str "SOC2") rfl rfl,
   (C1_transform_rule_type_gate "T"
      [("rule_type", Val.str "PII"),
       ("conditions", Val.list [Val.obj [("field", Val.str "email"),
         ("operator", Val.str "contains"), ("value", Val.str "@")]]),
       ("actions", Val.list [Val.obj [("type", Val.str "mask")]])]).2.2
     (Val.str "PII") rfl rfl rfl rfl⟩

/-! ### C9: transform output always passes validation -/

lemma checkCondsV_of_mapE (items cs : List Val)
    (h : mapE transformCond items = .ok cs) : checkCondsV cs = .ok true := by
  induction items generalizing cs with
  | nil =>
    simp [mapE] at h
    subst h
    rfl
  | cons x xs ih =>
    simp only [mapE] at h
    cases hx : transformCond x with
    | error e => simp [hx] at h
    | ok y =>
      rw [hx] at h
      cases hxs : mapE transformCond xs with
      | error e => simp [hxs] at h
      | ok ys =>
        rw [hxs] at h
        cases h
        obtain ⟨d, f, o, v, -, -, -, -, hy⟩ := (transformCond_ok_iff x y).mp hx
        subst hy
        simpa [checkCondsV, allKeysIn, keyIn, hasKey, lookup] using ih ys hxs

lemma checkActsV_of_mapE (items acts : List Val)
    (h : mapE transformAct items = .ok acts) : checkActsV acts = .ok true := by
  induction items generalizing acts with
  | nil =>
    simp [mapE] at h
    subst h
    rfl
  | cons x xs ih =>
    simp only [mapE] at h
    cases hx : transformAct x with
    | error e => simp [hx] at h
    | ok y =>
      rw [hx] at h
      cases hxs : mapE transformAct xs with
      | error e => simp [hxs] at h
      | ok ys =>
        rw [hxs] at h
        cases h
        obtain ⟨d, t, -, -, hy⟩ := (transformAct_ok_iff x y).mp hx
        subst hy
        simpa [checkActsV, keyIn, hasKey, lookup] using ih ys hxs

/-- C9: every rule returned by `transform_security_rule` passes
    `validate_rule`: the transformed rule always carries the keys
    `rule_type`, `asset_id`, `conditions` and `actions`, a supported
    `rule_type`, conditions with `field`/`operator`/`value` and actions with
    `type`; hence the invalid-rule branch after transform in
    `OutboundProcessor.process_security_event` is unreachable. -/
theorem C9_transform_implies_valid (now : String) (raw r : Dict)
    (h : transform_security_rule now raw = .ok r) :
    validate_rule r = .ok true := by
  obtain ⟨conds, acts, h1, h2, h3, h4, hr⟩ := transform_ok_elim now raw r h
  obtain ⟨citems, -, hmc⟩ := transform_conditions_elim _ _ h3
  obtain ⟨aitems, -, hma⟩ := transform_actions_elim _ _ h4
  subst hr
  have h2b : isSupportedRuleType ((lookup raw "rule_type").getD .null) = true := by
    simpa [dget] using h2
  simp [validate_rule, hasKey, dget, lookup, pyIter, h2b,
    checkCondsV_of_mapE citems conds hmc, checkActsV_of_mapE aitems acts hma]

/-- Witness for C9: a concrete `PII` rule transforms and the result
    validates. -/
theorem C9_transform_implies_valid_witness :
    transform_security_rule "T" [("rule_type", Val.str "PII")] =
      .ok [("rule_id", Val.str "rule_T"), ("rule_type", Val.str "PII"),
        ("asset_id", Val.null), ("asset_type", Val.null),
        ("conditions", Val.list []), ("actions", Val.list []),
        ("metadata", Val.obj [("created_at", Val.str "T"),
          ("updated_at", Val.str "T"), ("source", Val.str "atlan"),
          ("version", Val.str "1.0")])] ∧
    validate_rule [("rule_id", Val.str "rule_T"), ("rule_type", Val.str "PII"),
        ("asset_id", Val.null), ("asset_type", Val.null),
        ("conditions", Val.list []), ("actions", Val.list []),
        ("metadata", Val.obj [("created_at", Val.str "T"),
          ("updated_at", Val.str "T"), ("source", Val.str "atlan"),
          ("version", Val.str "1.0")])] = .ok true :=
  ⟨rfl, C9_transform_implies_valid "T" [("rule_type", Val.str "PII")] _ rfl⟩

/-! ### C2: the snowflake projection of transformed conditions -/

lemma mapE_formatCondSnow_of_transformed (items cs : List Val)
    (h : mapE transformCond items = .ok cs) :
    ∃ ps, mapE formatCondSnow cs = .ok ps ∧ ps.length = cs.length ∧
      ∀ i, i < cs.length →
        ∃ f o v, lookupObj (cs.getD i .null) "field" = some f ∧
          lookupObj (cs.getD i .null) "operator" = some o ∧
          lookupObj (cs.getD i .null) "value" = some v ∧
          ps.getD i .null =
            .obj [("column", f), ("operator", o), ("value", v)] := by
  induction items generalizing cs with
  | nil =>
    simp [mapE] at h
    subst h
    exact ⟨[], rfl, rfl, by intro i hi; simp at hi⟩
  | cons x xs ih =>
    simp only [mapE] at h
    cases hx : transformCond x with
    | error e => simp [hx] at h
    | ok y =>
      rw [hx] at h
      cases hxs : mapE transformCond xs with
      | error e => simp [hxs] at h
      | ok ys =>
        rw [hxs] at h
        cases h
        obtain ⟨d, f, o, v, -, -, -, -, hy⟩ := (transformCond_ok_iff x y).mp hx
        obtain ⟨ps, hps, hlen, hpt⟩ := ih ys hxs
        subst hy
        refine ⟨.obj [("column", f), ("operator", o), ("value", v)] :: ps,
          ?_, by simp [hlen], ?_⟩
        · simp [mapE, formatCondSnow, getItem, lookup, hps]
        · intro i hi
          cases i with
          | zero => exact ⟨f, o, v, by simp [lookupObj, lookup],
              by simp [lookupObj, lookup], by simp [lookupObj, lookup], rfl⟩
          | succ j =>
            simp only [List.length_cons] at hi
            simpa [List.getD_cons_succ] using hpt j (by omega)

lemma mapE_formatActSnow_of_transformed (items acts : List Val)
    (h : mapE transformAct items = .ok acts) :
    ∃ fa, mapE formatActSnow acts = .ok fa := by
  have hall : ∀ a ∈ acts, ∃ y, formatActSnow a = .ok y := by
    intro a ha
    obtain ⟨x, hx, hgx⟩ := mapE_ok_mem _ _ _ h a ha
    obtain ⟨d, t, -, -, hy⟩ := (transformAct_ok_iff x a).mp hgx
    subst hy
    exact ⟨.obj [("type", t),
        ("parameters", (lookup d "parameters").getD (.obj []))],
      by simp [formatActSnow, getItem, lookup]⟩
  exact mapE_ok_of_forall _ _ hall

/-- C2: for a rule produced by `transform_security_rule`, the conditions
    list of the snowflake policy has the same length and order as the
    conditions of the rule, and its entry at index `i` is exactly the record
    column/operator/value built from the fields of the condition of the rule
    at index `i`. -/
theorem C2_snowflake_condition_projection (now : String) (raw r p : Dict)
    (cs ps : List Val)
    (ht : transform_security_rule now raw = .ok r)
    (hc : lookup r "conditions" = some (.list cs))
    (hf : format_for_downstream r "snowflake" = .ok p)
    (hp : lookup p "conditions" = some (.list ps)) :
    ps.length = cs.length ∧
    ∀ i, i < cs.length →
      ∃ f o v, lookupObj (cs.getD i .null) "field" = some f ∧
        lookupObj (cs.getD i .null) "operator" = some o ∧
        lookupObj (cs.getD i .null) "value" = some v ∧
        ps.getD i .null =
          .obj [("column", f), ("operator", o), ("value", v)] := by
  obtain ⟨conds, acts, h1, h2, h3, h4, hr⟩ := transform_ok_elim now raw r ht
  obtain ⟨citems, -, hmc⟩ := transform_conditions_elim _ _ h3
  obtain ⟨aitems, -, hma⟩ := transform_actions_elim _ _ h4
  subst hr
  have hcs : conds = cs := by simpa [lookup] using hc
  subst hcs
  obtain ⟨qs, hqs, hqlen, hqpt⟩ := mapE_formatCondSnow_of_transformed _ _ hmc
  obtain ⟨fa, hfa⟩ := mapE_formatActSnow_of_transformed _ _ hma
  simp only [format_for_downstream, if_pos rfl] at hf
  simp [format_for_snowflake, lookup, format_snowflake_conditions,
    format_snowflake_actions, pyIter, hqs, hfa] at hf
  have hps : qs = ps := by
    rw [← hf] at hp
    simpa [lookup] using hp
  subst hps
  exact ⟨hqlen, hqpt⟩

/-- Witness for C2 at a concrete one-condition rule. -/
theorem C2_snowflake_condition_projection_witness :
    ([Val.obj [("column", Val.str "email"), ("operator", Val.str "contains"),
        ("value", Val.str "@")]].length =
      [Val.obj [("field", Val.str "email"), ("operator", Val.str "contains"),
        ("value", Val.str "@"), ("metadata", Val.obj
          [("description", Val.str ""),
           ("severity", Val.str "medium")])]].length) ∧
    ∀ i, i < [Val.obj [("field", Val.str "email"),
        ("operator", Val.str "contains"), ("value", Val.str "@"),
        ("metadata", Val.obj [("description", Val.str ""),
          ("severity", Val.str "medium")])]].length →
      ∃ f o v,
        lookupObj ([Val.obj [("field", Val.str "email"),
          ("operator", Val.str "contains"), ("value", Val.str "@"),
          ("metadata", Val.obj [("description", Val.str ""),
            ("severity", Val.str "medium")])]].getD i .null) "field" = some f ∧
        lookupObj ([Val.obj [("field", Val.str "email"),
          ("operator", Val.str "contains"), ("value", Val.str "@"),
          ("metadata", Val.obj [("description", Val.str ""),
            ("severity", Val.str "medium")])]].getD i .null) "operator" =
          some o ∧
        lookupObj ([Val.obj [("field", Val.str "email"),
          ("operator", Val.str "contains"), ("value", Val.str "@"),
          ("metadata", Val.obj [("description", Val.str ""),
            ("severity", Val.str "medium")])]].getD i .null) "value" =
          some v ∧
        [Val.obj [("column", Val.str "email"),
          ("operator", Val.str "contains"),
          ("value", Val.str "@")]].getD i .null =
          .obj [("column", f), ("operator", o), ("value", v)] :=
  C2_snowflake_condition_projection "T"
    [("rule_type", Val.str "PII"),
     ("conditions", Val.list [Val.obj [("field", Val.str "email"),
       ("operator", Val.str "contains"), ("value", Val.str "@")]]),
     ("actions", Val.list [])]
    [("rule_id", Val.str "rule_T"), ("rule_type", Val.str "PII"),
     ("asset_id", Val.null), ("asset_type", Val.null),
     ("conditions", Val.list [Val.obj [("field", Val.str "email"),
       ("operator", Val.str "contains"), ("value", Val.str "@"),
       ("metadata", Val.obj [("description", Val.str ""),
         ("severity", Val.str "medium")])]]),
     ("actions", Val.list []),
     ("metadata", Val.obj [("created_at", Val.str "T"),
       ("updated_at", Val.str "T"), ("source", Val.str "atlan"),
       ("version", Val.str "1.0")])]
    [("type", Val.str "snowflake_policy"), ("name", Val.str "atlan_rule_T"),
     ("database", Val.str "PUBLIC"), ("schema", Val.str "PUBLIC"),
     ("table", Val.null),
     ("conditions", Val.list [Val.obj [("column", Val.str "email"),
       ("operator", Val.str "contains"), ("value", Val.str "@")]]),
     ("actions", Val.list [])]
    [Val.obj [("field", Val.str "email"), ("operator", Val.str "contains"),
      ("value", Val.str "@"), ("metadata", Val.obj
        [("description", Val.str ""), ("severity", Val.str "medium")])]]
    [Val.obj [("column", Val.str "email"), ("operator", Val.str "contains"),
      ("value", Val.str "@")]]
    rfl rfl rfl rfl

/-! ### C8: target policy shapes and defaults -/

lemma formatCondSnow_ok_of_wf (c : Val) (h : wfCondFmtVal c = true) :
    ∃ y, formatCondSnow c = .ok y := by
  cases c with
  | null => simp [wfCondFmtVal] at h
  | str s => simp [wfCondFmtVal] at h
  | int n => simp [wfCondFmtVal] at h
  | list l => simp [wfCondFmtVal] at h
  | obj d =>
    simp only [wfCondFmtVal, Bool.and_eq_true] at h
    obtain ⟨⟨hf, ho⟩, hv⟩ := h
    obtain ⟨f, hf2⟩ := (hasKey_iff d "field").mp hf
    obtain ⟨o, ho2⟩ := (hasKey_iff d "operator").mp ho
    obtain ⟨v, hv2⟩ := (hasKey_iff d "value").mp hv
    exact ⟨.obj [("column", f), ("operator", o), ("value", v)],
      by simp [formatCondSnow, getItem, hf2, ho2, hv2]⟩

lemma formatActSnow_ok_of_wf (a : Val) (h : wfActFmtVal a = true) :
    ∃ y, formatActSnow a = .ok y := by
  cases a with
  | null => simp [wfActFmtVal] at h
  | str s => simp [wfActFmtVal] at h
  | int n => simp [wfActFmtVal] at h
  | list l => simp [wfActFmtVal] at h
  | obj d =>
    simp only [wfActFmtVal, Bool.and_eq_true] at h
    obtain ⟨ht, hp⟩ := h
    obtain ⟨t, ht2⟩ := (hasKey_iff d "type").mp ht
    obtain ⟨p, hp2⟩ := (hasKey_iff d "parameters").mp hp
    exact ⟨.obj [("type", t), ("parameters", p)],
      by simp [formatActSnow, getItem, ht2, hp2]⟩

/-- C8: on any rule carrying `rule_id` and well-formed condition/action
    lists, the snowflake policy has type `snowflake_policy`, name
    `atlan_` + rule_id, `database`/`schema` defaulting to `PUBLIC`, and the
    databricks policy has type `databricks_policy`, `catalog` defaulting to
    `hive_metastore` and `schema` defaulting to `default` (stored values win
    over defaults via `getD`). -/
theorem C8_target_policy_shape (r : Dict) (rid : Val) (cs acts : List Val)
    (hrid : lookup r "rule_id" = some rid)
    (hc : lookup r "conditions" = some (.list cs))
    (hwc : cs.all wfCondFmtVal = true)
    (ha : lookup r "actions" = some (.list acts))
    (hwa : acts.all wfActFmtVal = true) :
    (∃ fc fa, format_for_downstream r "snowflake" =
      .ok [("type", .str "snowflake_policy"),
           ("name", .str ("atlan_" ++ pyStr rid)),
           ("database", (lookup r "database").getD (.str "PUBLIC")),
           ("schema", (lookup r "schema").getD (.str "PUBLIC")),
           ("table", (lookup r "table").getD .null),
           ("conditions", .list fc), ("actions", .list fa)]) ∧
    (∃ fc fa, format_for_downstream r "databricks" =
      .ok [("type", .str "databricks_policy"),
           ("name", .str ("atlan_" ++ pyStr rid)),
           ("catalog", (lookup r "catalog").getD (.str "hive_metastore")),
           ("schema", (lookup r "schema").getD (.str "default")),
           ("table", (lookup r "table").getD .null),
           ("conditions", .list fc), ("actions", .list fa)]) := by
  simp only [List.all_eq_true] at hwc hwa
  obtain ⟨fc, hfc⟩ := mapE_ok_of_forall formatCondSnow cs
    (fun x hx => formatCondSnow_ok_of_wf x (hwc x hx))
  obtain ⟨fa, hfa⟩ := mapE_ok_of_forall formatActSnow acts
    (fun x hx => formatActSnow_ok_of_wf x (hwa x hx))
  constructor
  · exact ⟨fc, fa, by
      simp [format_for_downstream, format_for_snowflake, hrid, hc, ha,
        format_snowflake_conditions, format_snowflake_actions, pyIter,
        hfc, hfa, dget]⟩
  · exact ⟨fc, fa, by
      simp [format_for_downstream, format_for_databricks, hrid, hc, ha,
        format_databricks_conditions, format_databricks_actions, pyIter,
        hfc, hfa, dget]⟩

/-- Witness for C8 at a concrete rule without `database`/`schema`/`catalog`
    keys: the documented defaults appear. -/
theorem C8_target_policy_shape_witness :
    (∃ fc fa, format_for_downstream
      [("rule_id", Val.str "r1"), ("conditions", Val.list []),
       ("actions", Val.list [])] "snowflake" =
      .ok [("type", Val.str "snowflake_policy"),
           ("name", Val.str ("atlan_" ++ pyStr (Val.str "r1"))),
           ("database", (lookup [("rule_id", Val.str "r1"),
             ("conditions", Val.list []), ("actions", Val.list [])]
             "database").getD (.str "PUBLIC")),
           ("schema", (lookup [("rule_id", Val.str "r1"),
             ("conditions", Val.list []), ("actions", Val.list [])]
             "schema").getD (.str "PUBLIC")),
           ("table", (lookup [("rule_id", Val.str "r1"),
             ("conditions", Val.list []), ("actions", Val.list [])]
             "table").getD .null),
           ("conditions", .list fc), ("actions", .list fa)]) ∧
    (∃ fc fa, format_for_downstream
      [("rule_id", Val.str "r1"), ("conditions", Val.list []),
       ("actions", Val.list [])] "databricks" =
      .ok [("type", Val.str "databricks_policy"),
           ("name", Val.str ("atlan_" ++ pyStr (Val.str "r1"))),
           ("catalog", (lookup [("rule_id", Val.str "r1"),
             ("conditions", Val.list []), ("actions", Val.list [])]
             "catalog").getD (.str "hive_metastore")),
           ("schema", (lookup [("rule_id", Val.str "r1"),
             ("conditions", Val.list []), ("actions", Val.list [])]
             "schema").getD (.str "default")),
           ("table", (lookup [("rule_id", Val.str "r1"),
             ("conditions", Val.list []), ("actions", Val.list [])]
             "table").getD .null),
           ("conditions", .list fc), ("actions", .list fa)]) :=
  C8_target_policy_shape
    [("rule_id", Val.str "r1"), ("conditions", Val.list []),
     ("actions", Val.list [])]
    (Val.str "r1") [] [] rfl rfl rfl rfl rfl

/-! ### C3: missing condition keys -/

/-- Counterexample to C3 as stated: on a condition missing `field`, transform
    does fail, but with the fixed message `Invalid condition format`, which
    does not name the missing key (`field` does not occur in it). -/
theorem C3_missing_key_message_counterexample :
    transform_security_rule "T"
      [("rule_type", Val.str "PII"),
       ("conditions", Val.list [Val.obj [("operator", Val.str "eq"),
         ("value", Val.int 1)]])] =
      .error "Invalid condition format" ∧
    strIn "field" "Invalid condition format" = false :=
  ⟨rfl, by decide⟩

lemma mapE_transformCond_error (xs : List Val)
    (hobj : xs.all isObjB = true) (hbad : xs.all wfCondVal = false) :
    mapE transformCond xs = .error "Invalid condition format" := by
  induction xs with
  | nil => simp at hbad
  | cons x xs ih =>
    simp only [List.all_cons, Bool.and_eq_true] at hobj
    obtain ⟨hx, hxs⟩ := hobj
    cases x with
    | null => simp [isObjB] at hx
    | str s => simp [isObjB] at hx
    | int n => simp [isObjB] at hx
    | list l => simp [isObjB] at hx
    | obj d =>
      cases hf : hasKey d "field" with
      | false => simp [mapE, transformCond, allKeysIn, keyIn, hf]
      | true =>
        cases ho : hasKey d "operator" with
        | false => simp [mapE, transformCond, allKeysIn, keyIn, hf, ho]
        | true =>
          cases hv : hasKey d "value" with
          | false => simp [mapE, transformCond, allKeysIn, keyIn, hf, ho, hv]
          | true =>
            have hbad2 : xs.all wfCondVal = false := by
              simpa [wfCondVal, hf, ho, hv] using hbad
            obtain ⟨f, hf2⟩ := (hasKey_iff d "field").mp hf
            obtain ⟨o, ho2⟩ := (hasKey_iff d "operator").mp ho
            obtain ⟨w, hv2⟩ := (hasKey_iff d "value").mp hv
            have hok := (transformCond_ok_iff (.obj d) _).mpr
              ⟨d, f, o, w, rfl, hf2, ho2, hv2, rfl⟩
            simp [mapE, hok, ih hxs hbad2]

/-- C3 amended: a raw rule (with supported `rule_type`) whose `conditions`
    list contains a dict lacking one of `field`/`operator`/`value` makes
    transform fail with the fixed message `Invalid condition format`; the
    message does not identify which keys are missing. -/
theorem C3_missing_key_amended (now : String) (raw : Dict) (v : Val)
    (xs : List Val)
    (hrt : lookup raw "rule_type" = some v)
    (hsup : isSupportedRuleType v = true)
    (hc : lookup raw "conditions" = some (.list xs))
    (hobj : xs.all isObjB = true)
    (hbad : xs.all wfCondVal = false) :
    transform_security_rule now raw = .error "Invalid condition format" := by
  have h1 : hasKey raw "rule_type" = true := by simp [hasKey, hrt]
  have hrt2 : dget raw "rule_type" .null = v := by simp [dget, hrt]
  have hcv : dget raw "conditions" (.list []) = .list xs := by
    simp [dget, hc]
  have herr := mapE_transformCond_error xs hobj hbad
  simp [transform_security_rule, h1, hrt2, hsup, transform_conditions, hcv,
    pyIter, herr]

/-- Witness for the amended C3 at the concrete condition missing `field`. -/
theorem C3_missing_key_amended_witness :
    transform_security_rule "T"
      [("rule_type", Val.str "GDPR"),
       ("conditions", Val.list [Val.obj [("operator", Val.str "eq"),
         ("value", Val.int 1)]])] =
      .error "Invalid condition format" :=
  C3_missing_key_amended "T"
    [("rule_type", Val.str "GDPR"),
     ("conditions", Val.list [Val.obj [("operator", Val.str "eq"),
       ("value", Val.int 1)]])]
    (Val.str "GDPR") [Val.obj [("operator", Val.str "eq"),
      ("value", Val.int 1)]] rfl rfl rfl rfl rfl

/-! ### C4: the shape of transformed conditions and actions -/

/-- Counterexample to C4 as stated: the transformed condition carries no
    top-level `description`/`severity` fields and the transformed action no
    top-level `description`/`priority` fields — those live under a nested
    `metadata` sub-record instead. -/
theorem C4_flat_metadata_counterexample :
    transform_security_rule "T"
      [("rule_type", Val.str "PII"),
       ("conditions", Val.list [Val.obj [("field", Val.str "f"),
         ("operator", Val.str "eq"), ("value", Val.int 1)]]),
       ("actions", Val.list [Val.obj [("type", Val.str "mask")]])] =
      .ok [("rule_id", Val.str "rule_T"), ("rule_type", Val.str "PII"),
        ("asset_id", Val.null), ("asset_type", Val.null),
        ("conditions", Val.list [Val.obj [("field", Val.str "f"),
          ("operator", Val.str "eq"), ("value", Val.int 1),
          ("metadata", Val.obj [("description", Val.str ""),
            ("severity", Val.str "medium")])]]),
        ("actions", Val.list [Val.obj [("type", Val.str "mask"),
          ("parameters", Val.obj []),
          ("metadata", Val.obj [("description", Val.str ""),
            ("priority", Val.str "normal")])]]),
        ("metadata", Val.obj [("created_at", Val.str "T"),
          ("updated_at", Val.str "T"), ("source", Val.str "atlan"),
          ("version", Val.str "1.0")])] ∧
    lookupObj (Val.obj [("field", Val.str "f"), ("operator", Val.str "eq"),
      ("value", Val.int 1), ("metadata", Val.obj
        [("description", Val.str ""), ("severity", Val.str "medium")])])
      "description" = none ∧
    lookupObj (Val.obj [("field", Val.str "f"), ("operator", Val.str "eq"),
      ("value", Val.int 1), ("metadata", Val.obj
        [("description", Val.str ""), ("severity", Val.str "medium")])])
      "severity" = none ∧
    lookupObj (Val.obj [("type", Val.str "mask"), ("parameters", Val.obj []),
      ("metadata", Val.obj [("description", Val.str ""),
        ("priority", Val.str "normal")])]) "description" = none ∧
    lookupObj (Val.obj [("type", Val.str "mask"), ("parameters", Val.obj []),
      ("metadata", Val.obj [("description", Val.str ""),
        ("priority", Val.str "normal")])]) "priority" = none :=
  ⟨rfl, rfl, rfl, rfl, rfl⟩

/-- C4 amended: each transformed condition is a record with fields `field`,
    `operator`, `value` and a nested `metadata` record holding `description`
    (default `""`) and `severity` (default `medium`); each transformed action
    has `type`, `parameters` (default empty mapping) and a nested `metadata`
    record holding `description` (default `""`) and `priority` (default
    `normal`). -/
theorem C4_nested_metadata_defaults (now : String) (raw r : Dict)
    (ht : transform_security_rule now raw = .ok r) :
    (∀ xs cs, lookup raw "conditions" = some (.list xs) →
      lookup r "conditions" = some (.list cs) →
      cs.length = xs.length ∧
      ∀ i, i < xs.length → ∃ d,
        xs.getD i .null = .obj d ∧
        cs.getD i .null = .obj [
          ("field", (lookup d "field").getD .null),
          ("operator", (lookup d "operator").getD .null),
          ("value", (lookup d "value").getD .null),
          ("metadata", .obj [
            ("description", (lookup d "description").getD (.str "")),
            ("severity", (lookup d "severity").getD (.str "medium"))])]) ∧
    (∀ ys acts, lookup raw "actions" = some (.list ys) →
      lookup r "actions" = some (.list acts) →
      acts.length = ys.length ∧
      ∀ i, i < ys.length → ∃ d,
        ys.getD i .null = .obj d ∧
        acts.getD i .null = .obj [
          ("type", (lookup d "type").getD .null),
          ("parameters", (lookup d "parameters").getD (.obj [])),
          ("metadata", .obj [
            ("description", (lookup d "description").getD (.str "")),
            ("priority", (lookup d "priority").getD (.str "normal"))])]) := by
  obtain ⟨conds, acts0, h1, h2, h3, h4, hr⟩ := transform_ok_elim now raw r ht
  subst hr
  constructor
  · intro xs cs hxs hcs
    have hcs2 : conds = cs := by simpa [lookup] using hcs
    subst hcs2
    have hxv : dget raw "conditions" (.list []) = .list xs := by
      simp [dget, hxs]
    rw [hxv] at h3
    obtain ⟨items, hit, hmc⟩ := transform_conditions_elim _ _ h3
    have hit2 : xs = items := by simpa [pyIter] using hit
    subst hit2
    obtain ⟨hlen, hpt⟩ := mapE_ok_getD _ _ _ hmc
    refine ⟨hlen, ?_⟩
    intro i hi
    have hgi := hpt i hi
    obtain ⟨d, f, o, v, hd, hf, ho, hv, hshape⟩ :=
      (transformCond_ok_iff _ _).mp hgi
    refine ⟨d, hd, ?_⟩
    rw [hshape]
    simp [hf, ho, hv]
  · intro ys acts hys hacts
    have hacts2 : acts0 = acts := by simpa [lookup] using hacts
    subst hacts2
    have hyv : dget raw "actions" (.list []) = .list ys := by
      simp [dget, hys]
    rw [hyv] at h4
    obtain ⟨items, hit, hma⟩ := transform_actions_elim _ _ h4
    have hit2 : ys = items := by simpa [pyIter] using hit
    subst hit2
    obtain ⟨hlen, hpt⟩ := mapE_ok_getD _ _ _ hma
    refine ⟨hlen, ?_⟩
    intro i hi
    have hgi := hpt i hi
    obtain ⟨d, t, hd, htk, hshape⟩ := (transformAct_ok_iff _ _).mp hgi
    refine ⟨d, hd, ?_⟩
    rw [hshape]
    simp [htk]

/-- Witness for the amended C4 at a concrete rule whose condition and action
    omit the defaulted fields. -/
theorem C4_nested_metadata_defaults_witness :
    ([Val.obj [("field", Val.str "f"), ("operator", Val.str "eq"),
        ("value", Val.int 1), ("metadata", Val.obj
          [("description", Val.str ""),
           ("severity", Val.str "medium")])]].length =
      [Val.obj [("field", Val.str "f"), ("operator", Val.str "eq"),
        ("value", Val.int 1)]].length) ∧
    ∀ i, i < [Val.obj [("field", Val.str "f"), ("operator", Val.str "eq"),
        ("value", Val.int 1)]].length → ∃ d,
      [Val.obj [("field", Val.str "f"), ("operator", Val.str "eq"),
        ("value", Val.int 1)]].getD i .null = .obj d ∧
      [Val.obj [("field", Val.str "f"), ("operator", Val.str "eq"),
        ("value", Val.int 1), ("metadata", Val.obj
          [("description", Val.str ""),
           ("severity", Val.str "medium")])]].getD i .null = .obj [
        ("field", (lookup d "field").getD .null),
        ("operator", (lookup d "operator").getD .null),
        ("value", (lookup d "value").getD .null),
        ("metadata", .obj [
          ("description", (lookup d "description").getD (.str "")),
          ("severity", (lookup d "severity").getD (.str "medium"))])] :=
  (C4_nested_metadata_defaults "T"
    [("rule_type", Val.str "PII"),
     ("conditions", Val.list [Val.obj [("field", Val.str "f"),
       ("operator", Val.str "eq"), ("value", Val.int 1)]]),
     ("actions", Val.list [Val.obj [("type", Val.str "mask")]])]
    [("rule_id", Val.str "rule_T"), ("rule_type", Val.str "PII"),
     ("asset_id", Val.null), ("asset_type", Val.null),
     ("conditions", Val.list [Val.obj [("field", Val.str "f"),
       ("operator", Val.str "eq"), ("value", Val.int 1),
       ("metadata", Val.obj [("description", Val.str ""),
         ("severity", Val.str "medium")])]]),
     ("actions", Val.list [Val.obj [("type", Val.str "mask"),
       ("parameters", Val.obj []),
       ("metadata", Val.obj [("description", Val.str ""),
         ("priority", Val.str "normal")])]]),
     ("metadata", Val.obj [("created_at", Val.str "T"),
       ("updated_at", Val.str "T"), ("source", Val.str "atlan"),
       ("version", Val.str "1.0")])] rfl).1
    [Val.obj [("field", Val.str "f"), ("operator", Val.str "eq"),
      ("value", Val.int 1)]]
    [Val.obj [("field", Val.str "f"), ("operator", Val.str "eq"),
      ("value", Val.int 1), ("metadata", Val.obj
        [("description", Val.str ""), ("severity", Val.str "medium")])]]
    rfl rfl

/-! ### C10: re-transforming resets condition/action metadata -/

/-- C10: applying `transform_security_rule` to the output of a previous
    transform (as the update path does after shallow-merging the stored
    payload) yields conditions whose nested `metadata` is reset to the
    defaults `description = ""` / `severity = "medium"` and actions reset to
    `description = ""` / `priority = "normal"`: the first pass stored those
    values under the nested `metadata` sub-record, which the second pass does
    not read. -/
theorem C10_transform_not_idempotent (n1 n2 : String) (raw r1 r2 : Dict)
    (h1 : transform_security_rule n1 raw = .ok r1)
    (h2 : transform_security_rule n2 r1 = .ok r2) :
    (∀ cs, lookup r2 "conditions" = some (.list cs) → ∀ c ∈ cs,
      lookupObj c "metadata" = some (.obj [("description", .str ""),
        ("severity", .str "medium")])) ∧
    (∀ acts, lookup r2 "actions" = some (.list acts) → ∀ a ∈ acts,
      lookupObj a "metadata" = some (.obj [("description", .str ""),
        ("priority", .str "normal")])) := by
  obtain ⟨conds1, acts1, g1, g2, g3, g4, hr1⟩ := transform_ok_elim n1 raw r1 h1
  obtain ⟨citems1, -, hmc1⟩ := transform_conditions_elim _ _ g3
  obtain ⟨aitems1, -, hma1⟩ := transform_actions_elim _ _ g4
  obtain ⟨conds2, acts2, k1, k2, k3, k4, hr2⟩ := transform_ok_elim n2 r1 r2 h2
  subst hr1
  have hdc : dget ([("rule_id", dget raw "rule_id" (.str ("rule_" ++ n1))),
      ("rule_type", dget raw "rule_type" .null),
      ("asset_id", dget raw "asset_id" .null),
      ("asset_type", dget raw "asset_type" .null),
      ("conditions", .list conds1), ("actions", .list acts1),
      ("metadata", .obj [("created_at", .str n1), ("updated_at", .str n1),
        ("source", .str "atlan"), ("version", .str "1.0")])] : Dict)
      "conditions" (.list []) = .list conds1 := by simp [dget, lookup]
  have hda : dget ([("rule_id", dget raw "rule_id" (.str ("rule_" ++ n1))),
      ("rule_type", dget raw "rule_type" .null),
      ("asset_id", dget raw "asset_id" .null),
      ("asset_type", dget raw "asset_type" .null),
      ("conditions", .list conds1), ("actions", .list acts1),
      ("metadata", .obj [("created_at", .str n1), ("updated_at", .str n1),
        ("source", .str "atlan"), ("version", .str "1.0")])] : Dict)
      "actions" (.list []) = .list acts1 := by simp [dget, lookup]
  rw [hdc] at k3
  rw [hda] at k4
  obtain ⟨citems2, hcit2, hmc2⟩ := transform_conditions_elim _ _ k3
  obtain ⟨aitems2, hait2, hma2⟩ := transform_actions_elim _ _ k4
  have hce : conds1 = citems2 := by simpa [pyIter] using hcit2
  have hae : acts1 = aitems2 := by simpa [pyIter] using hait2
  subst hce
  subst hae
  subst hr2
  constructor
  · intro cs hcs c hc
    have hcs2 : conds2 = cs := by simpa [lookup] using hcs
    subst hcs2
    obtain ⟨x, hx, hgx⟩ := mapE_ok_mem _ _ _ hmc2 c hc
    obtain ⟨x0, -, hgx0⟩ := mapE_ok_mem _ _ _ hmc1 x hx
    obtain ⟨d0, f0, o0, v0, -, -, -, -, hxshape⟩ :=
      (transformCond_ok_iff _ _).mp hgx0
    subst hxshape
    obtain ⟨d, f, o, v, hd, hf, ho, hv, hshape⟩ :=
      (transformCond_ok_iff _ _).mp hgx
    have hd2 : d = [("field", f0), ("operator", o0), ("value", v0),
        ("metadata", .obj [("description",
          (lookup d0 "description").getD (.str "")),
          ("severity", (lookup d0 "severity").getD (.str "medium"))])] := by
      cases hd
      rfl
    subst hd2
    subst hshape
    simp [lookupObj, lookup]
  · intro acts hacts a ha
    have hacts2 : acts2 = acts := by simpa [lookup] using hacts
    subst hacts2
    obtain ⟨x, hx, hgx⟩ := mapE_ok_mem _ _ _ hma2 a ha
    obtain ⟨x0, -, hgx0⟩ := mapE_ok_mem _ _ _ hma1 x hx
    obtain ⟨d0, t0, -, -, hxshape⟩ := (transformAct_ok_iff _ _).mp hgx0
    subst hxshape
    obtain ⟨d, t, hd, htk, hshape⟩ := (transformAct_ok_iff _ _).mp hgx
    have hd2 : d = [("type", t0),
        ("parameters", (lookup d0 "parameters").getD (.obj [])),
        ("metadata", .obj [("description",
          (lookup d0 "description").getD (.str "")),
          ("priority", (lookup d0 "priority").getD (.str "normal"))])] := by
      cases hd
      rfl
    subst hd2
    subst hshape
    simp [lookupObj, lookup]

/-- Witness for C10: a condition entering with `severity = high`,
    `description = top` (and an action with `priority = high`) comes out of
    the first transform with those values under `metadata`; the second
    transform resets them to the defaults. -/
theorem C10_transform_not_idempotent_witness :
    transform_security_rule "T"
      [("rule_type", Val.str "PII"),
       ("conditions", Val.list [Val.obj [("field", Val.str "email"),
         ("operator", Val.str "contains"), ("value", Val.str "@"),
         ("severity", Val.str "high"), ("description", Val.str "top")]]),
       ("actions", Val.list [Val.obj [("type", Val.str "mask"),
         ("priority", Val.str "high")]])] =
      .ok [("rule_id", Val.str "rule_T"), ("rule_type", Val.str "PII"),
        ("asset_id", Val.null), ("asset_type", Val.null),
        ("conditions", Val.list [Val.obj [("field", Val.str "email"),
          ("operator", Val.str "contains"), ("value", Val.str "@"),
          ("metadata", Val.obj [("description", Val.str "top"),
            ("severity", Val.str "high")])]]),
        ("actions", Val.list [Val.obj [("type", Val.str "mask"),
          ("parameters", Val.obj []),
          ("metadata", Val.obj [("description", Val.str ""),
            ("priority", Val.str "high")])]]),
        ("metadata", Val.obj [("created_at", Val.str "T"),
          ("updated_at", Val.str "T"), ("source", Val.str "atlan"),
          ("version", Val.str "1.0")])] ∧
    transform_security_rule "U"
      [("rule_id", Val.str "rule_T"), ("rule_type", Val.str "PII"),
        ("asset_id", Val.null), ("asset_type", Val.null),
        ("conditions", Val.list [Val.obj [("field", Val.str "email"),
          ("operator", Val.str "contains"), ("value", Val.str "@"),
          ("metadata", Val.obj [("description", Val.str "top"),
            ("severity", Val.str "high")])]]),
        ("actions", Val.list [Val.obj [("type", Val.str "mask"),
          ("parameters", Val.obj []),
          ("metadata", Val.obj [("description", Val.str ""),
            ("priority", Val.str "high")])]]),
        ("metadata", Val.obj [("created_at", Val.str "T"),
          ("updated_at", Val.str "T"), ("source", Val.str "atlan"),
          ("version", Val.str "1.0")])] =
      .ok [("rule_id", Val.str "rule_T"), ("rule_type", Val.str "PII"),
        ("asset_id", Val.null), ("asset_type", Val.null),
        ("conditions", Val.list [Val.obj [("field", Val.str "email"),
          ("operator", Val.str "contains"), ("value", Val.str "@"),
          ("metadata", Val.obj [("description", Val.str ""),
            ("severity", Val.str "medium")])]]),
        ("actions", Val.list [Val.obj [("type", Val.str "mask"),
          ("parameters", Val.obj []),
          ("metadata", Val.obj [("description", Val.str ""),
            ("priority", Val.str "normal")])]]),
        ("metadata", Val.obj [("created_at", Val.str "U"),
          ("updated_at", Val.str "U"), ("source", Val.str "atlan"),
          ("version", Val.str "1.0")])] ∧
    lookupObj (Val.obj [("field", Val.str "email"),
      ("operator", Val.str "contains"), ("value", Val.str "@"),
      ("metadata", Val.obj [("description", Val.str "top"),
        ("severity", Val.str "high")])]) "metadata" =
      some (Val.obj [("description", Val.str "top"),
        ("severity", Val.str "high")]) ∧
    (∀ c ∈ [Val.obj [("field", Val.str "email"),
        ("operator", Val.str "contains"), ("value", Val.str "@"),
        ("metadata", Val.obj [("description", Val.str ""),
          ("severity", Val.str "medium")])]],
      lookupObj c "metadata" = some (.obj [("description", .str ""),
        ("severity", .str "medium")])) ∧
    (∀ a ∈ [Val.obj [("type", Val.str "mask"), ("parameters", Val.obj []),
        ("metadata", Val.obj [("description", Val.str ""),
          ("priority", Val.str "normal")])]],
      lookupObj a "metadata" = some (.obj [("description", .str ""),
        ("priority", .str "normal")])) :=
  ⟨rfl, rfl, rfl,
   (C10_transform_not_idempotent "T" "U"
      [("rule_type", Val.str "PII"),
       ("conditions", Val.list [Val.obj [("field", Val.str "email"),
         ("operator", Val.str "contains"), ("value", Val.str "@"),
         ("severity", Val.str "high"), ("description", Val.str "top")]]),
       ("actions", Val.list [Val.obj [("type", Val.str "mask"),
         ("priority", Val.str "high")]])]
      [("rule_id", Val.str "rule_T"), ("rule_type", Val.str "PII"),
        ("asset_id", Val.null), ("asset_type", Val.null),
        ("conditions", Val.list [Val.obj [("field", Val.str "email"),
          ("operator", Val.str "contains"), ("value", Val.str "@"),
          ("metadata", Val.obj [("description", Val.str "top"),
            ("severity", Val.str "high")])]]),
        ("actions", Val.list [Val.obj [("type", Val.str "mask"),
          ("parameters", Val.obj []),
          ("metadata", Val.obj [("description", Val.str ""),
            ("priority", Val.str "high")])]]),
        ("metadata", Val.obj [("created_at", Val.str "T"),
          ("updated_at", Val.str "T"), ("source", Val.str "atlan"),
          ("version", Val.str "1.0")])]
      [("rule_id", Val.str "rule_T"), ("rule_type", Val.str "PII"),
        ("asset_id", Val.null), ("asset_type", Val.null),
        ("conditions", Val.list [Val.obj [("field", Val.str "email"),
          ("operator", Val.str "contains"), ("value", Val.str "@"),
          ("metadata", Val.obj [("description", Val.str ""),
            ("severity", Val.str "medium")])]]),
        ("actions", Val.list [Val.obj [("type", Val.str "mask"),
          ("parameters", Val.obj []),
          ("metadata", Val.obj [("description", Val.str ""),
            ("priority", Val.str "normal")])]]),
        ("metadata", Val.obj [("created_at", Val.str "U"),
          ("updated_at", Val.str "U"), ("source", Val.str "atlan"),
          ("version", Val.str "1.0")])]
      rfl rfl).1
     [Val.obj [("field", Val.str "email"),
        ("operator", Val.str "contains"), ("value", Val.str "@"),
        ("metadata", Val.obj [("description", Val.str ""),
          ("severity", Val.str "medium")])]] rfl,
   (C10_transform_not_idempotent "T" "U"
      [("rule_type", Val.str "PII"),
       ("conditions", Val.list [Val.obj [("field", Val.str "email"),
         ("operator", Val.str "contains"), ("value", Val.str "@"),
         ("severity", Val.str "high"), ("description", Val.str "top")]]),
       ("actions", Val.list [Val.obj [("type", Val.str "mask"),
         ("priority", Val.str "high")]])]
      [("rule_id", Val.str "rule_T"), ("rule_type", Val.str "PII"),
        ("asset_id", Val.null), ("asset_type", Val.null),
        ("conditions", Val.list [Val.obj [("field", Val.str "email"),
          ("operator", Val.str "contains"), ("value", Val.str "@"),
          ("metadata", Val.obj [("description", Val.str "top"),
            ("severity", Val.str "high")])]]),
        ("actions", Val.list [Val.obj [("type", Val.str "mask"),
          ("parameters", Val.obj []),
          ("metadata", Val.obj [("description", Val.str ""),
            ("priority", Val.str "high")])]]),
        ("metadata", Val.obj [("created_at", Val.str "T"),
          ("updated_at", Val.str "T"), ("source", Val.str "atlan"),
          ("version", Val.str "1.0")])]
      [("rule_id", Val.str "rule_T"), ("rule_type", Val.str "PII"),
        ("asset_id", Val.null), ("asset_type", Val.null),
        ("conditions", Val.list [Val.obj [("field", Val.str "email"),
          ("operator", Val.str "contains"), ("value", Val.str "@"),
          ("metadata", Val.obj [("description", Val.str ""),
            ("severity", Val.str "medium")])]]),
        ("actions", Val.list [Val.obj [("type", Val.str "mask"),
          ("parameters", Val.obj []),
          ("metadata", Val.obj [("description", Val.str ""),
            ("priority", Val.str "normal")])]]),
        ("metadata", Val.obj [("created_at", Val.str "U"),
          ("updated_at", Val.str "U"), ("source", Val.str "atlan"),
          ("version", Val.str "1.0")])]
      rfl rfl).2
     [Val.obj [("type", Val.str "mask"), ("parameters", Val.obj []),
        ("metadata", Val.obj [("description", Val.str ""),
          ("priority", Val.str "normal")])]] rfl⟩
